import Mathlib

/-!
Shallow embedding of the client-side session and settings state machine of
the profilespaces front end (`src/ui/src/App.jsx`), together with proofs of
the behavioural claims about it: login validation, logout, toast signaling,
the username/profile-URL availability checker and its request-fencing
counters, per-section dirtiness, the section navigation guard, and the
save gate / save reconciliation of the settings page.

Conventions of the embedding:
* JS strings are Lean `String`; `trim` / `toLowerCase` are modelled by
  `jsTrim` / `lowerStr` over the underlying character lists (ASCII-faithful,
  which covers every value the handle/email patterns accept).
* Fallible async calls are modelled by passing the response (or failure)
  as an explicit argument; React state updates become explicit record
  updates; `useRef` cells are ordinary state fields.
* JS truthiness on optional strings/booleans is modelled by `jsOrStr`,
  `truthyStr` and `truthyB`.
-/

set_option autoImplicit false

namespace ProfileSpaces

/-- Model of the whitespace characters stripped by `String.prototype.trim`. -/
def isJsSpace (c : Char) : Bool :=
  c == ' ' || c == '\t' || c == '\n' || c == '\r' || c == '\x0b' || c == '\x0c'

/-- Embedding of JS `value.trim()`. -/
def jsTrim (s : String) : String :=
  String.mk (((s.data.dropWhile isJsSpace).reverse.dropWhile isJsSpace).reverse)

/-- Embedding of JS `value.toLowerCase()` (ASCII case folding). -/
def lowerStr (s : String) : String :=
  String.mk (s.data.map Char.toLower)

/-- A character allowed by the handle pattern `[a-zA-Z0-9._-]`. -/
def isHandleChar (c : Char) : Bool :=
  c.isAlpha || c.isDigit || c == '.' || c == '_' || c == '-'

/-- Embedding of `usernamePattern = /^[a-zA-Z0-9._-]{3,30}$/` (App.jsx:79). -/
def usernamePattern (s : String) : Bool :=
  decide (3 ≤ s.data.length) && decide (s.data.length ≤ 30) && s.data.all isHandleChar

/-- Embedding of `emailPattern = /^[^\s@]+@[^\s@]+\.[^\s@]+$/` (App.jsx:78):
the string splits at a unique `@` into a nonempty whitespace-free local part
and a whitespace-free domain containing a dot at an interior position. -/
def emailPattern (s : String) : Bool :=
  match s.data.splitOn '@' with
  | [a, r] =>
      !a.isEmpty && a.all (fun c => !isJsSpace c) &&
      !r.isEmpty && r.all (fun c => !isJsSpace c) &&
      ((r.drop 1).dropLast.contains '.')
  | _ => false

/-- Embedding of `RESERVED_HANDLES` (App.jsx:81-87). -/
def reservedHandles : List String :=
  ["admin", "support", "profilespaces", "profile", "settings"]

/-! ### Toast signaling (`useToast`, App.jsx:315-330)

`showToast` stores the new toast, clears any previous timeout through the
single `timerRef` cell, and schedules a fresh 3.2 s timeout whose callback
unconditionally clears the toast.  Scheduled timeouts are modelled by a
list of pending timer ids (`setTimeout` appends a fresh id, `clearTimeout`
removes it); only a pending timer can fire. -/

/-- A toast message with its kind, as stored by `setToast`. -/
structure Toast where
  message : String
  kind : String
deriving DecidableEq

/-- State of the `useToast` hook: current toast, scheduled timeouts,
the `timerRef` cell, and a supply of fresh timer ids. -/
structure ToastState where
  toast : Option Toast
  pending : List Nat
  timerRef : Option Nat
  nextId : Nat
deriving DecidableEq

/-- Initial `useToast` state: no toast, no timer. -/
def initToastState : ToastState :=
  { toast := none, pending := [], timerRef := none, nextId := 0 }

/-- Embedding of `showToast(message, type)`: set the toast, `clearTimeout`
the previous timer held in `timerRef`, and schedule a fresh 3200 ms timer. -/
def showToast (s : ToastState) (message kind : String) : ToastState :=
  let pending' :=
    match s.timerRef with
    | some t => s.pending.erase t
    | none => s.pending
  { toast := some ⟨message, kind⟩
    pending := pending' ++ [s.nextId]
    timerRef := some s.nextId
    nextId := s.nextId + 1 }

/-- A scheduled timeout fires: its callback `() => setToast(null)` runs
(only if the timeout is still pending, i.e. was not cleared). -/
def fireTimer (s : ToastState) (id : Nat) : ToastState :=
  if id ∈ s.pending then
    { s with toast := none, pending := s.pending.erase id }
  else s

/-- Events observed by the toast hook. -/
inductive ToastEvent where
  | showEv (message kind : String)
  | fireEv (id : Nat)
deriving DecidableEq

/-- One step of the toast hook. -/
def toastStep (s : ToastState) : ToastEvent → ToastState
  | .showEv m k => showToast s m k
  | .fireEv id => fireTimer s id

/-- Run the toast hook over a list of events. -/
def runToast (s : ToastState) (es : List ToastEvent) : ToastState :=
  es.foldl toastStep s

/-- Invariant of the toast hook: at most one timeout is scheduled, and when
one is, `timerRef` points at it. -/
def ToastInv (s : ToastState) : Prop :=
  s.pending = [] ∨ ∃ t, s.timerRef = some t ∧ s.pending = [t]

/-! ### Session store (`AuthProvider`, App.jsx:419-516) -/

/-- Local session state: in-memory token and user plus the durable
`localStorage` record under `AUTH_STORAGE_KEY`, and the console log. -/
structure SessionState where
  token : String
  user : Option String
  storage : Option (String × Option String)
  logLines : List String
deriving DecidableEq

/-- Embedding of `clearAuth` (App.jsx:443-447): clear the token, the user,
and remove the durable storage record. -/
def clearAuth (s : SessionState) : SessionState :=
  { s with token := "", user := none, storage := none }

/-- Embedding of `logout` (App.jsx:449-460).  When a token is held, the
best-effort `POST /auth/logout/` is attempted; its outcome is the explicit
`serverOutcome` argument.  A failure is caught and only logged; the
`finally` block always runs `clearAuth`. -/
def logout (s : SessionState) (serverOutcome : Except String Unit) : SessionState :=
  let s1 :=
    if s.token ≠ "" then
      match serverOutcome with
      | .ok _ => s
      | .error e => { s with logLines := s.logLines ++ ["Logout failed " ++ e] }
    else s
  clearAuth s1

/-! ### Login validation (`validateLogin`, App.jsx:360-374) -/

/-- The values of the login form. -/
structure LoginValues where
  identifier : String
  password : String
deriving DecidableEq

/-- The error map produced by `validateLogin`; a `none` field means the
field is valid. -/
structure LoginErrors where
  identifier : Option String
  password : Option String
deriving DecidableEq

/-- Embedding of `validateLogin` (App.jsx:360-374). -/
def validateLogin (values : LoginValues) : LoginErrors :=
  let identifier := jsTrim values.identifier
  let idErr : Option String :=
    if identifier == "" then some "Enter your email or username."
    else if identifier.data.contains '@' && !emailPattern identifier then
      some "Enter a valid email address."
    else if !identifier.data.contains '@' && !usernamePattern identifier then
      some "Use 3-30 letters, numbers, or ._- in your username."
    else none
  { identifier := idErr
    password := if values.password == "" then some "Password is required." else none }

/-! ### Settings data model (`SettingsPage`, App.jsx:1750-2007)

The `saved`/`draft` pair shares one superset schema (`buildDefaults`,
App.jsx:1810-1830).  The per-section field lists are `sectionFieldMap`
(App.jsx:1968-1988); `hasSectionChanges` (App.jsx:1990-1995) compares the
two states field by field with `JSON.stringify`, which on the string /
boolean / string-array values of this schema coincides with structural
equality. -/

/-- The six settings sections. -/
inductive SectionId where
  | account | profile | privacy | notifications | appearance | help
deriving DecidableEq

/-- The field identifiers of the shared `saved`/`draft` schema. -/
inductive FieldId where
  | displayName | username | profileUrl | bio | location | interests
  | status | photoUrl
  | visibility | showLocation | allowSearch
  | emailNotifications | productUpdates | newFollowerAlerts | weeklyDigest
  | pauseNotifications
  | theme
deriving DecidableEq

/-- The shared `saved`/`draft` record (`buildDefaults`, App.jsx:1810-1830). -/
structure SettingsFields where
  displayName : String
  username : String
  profileUrl : String
  bio : String
  location : String
  interests : List String
  status : String
  photoUrl : String
  visibility : String
  showLocation : Bool
  allowSearch : Bool
  emailNotifications : Bool
  productUpdates : Bool
  newFollowerAlerts : Bool
  weeklyDigest : Bool
  pauseNotifications : String
  theme : String
deriving DecidableEq

/-- A field value, for field-wise (deep) comparison. -/
inductive FieldValue where
  | str (s : String)
  | flag (b : Bool)
  | strs (l : List String)
deriving DecidableEq

/-- Project one field out of a `SettingsFields` record. -/
def getField (s : SettingsFields) : FieldId → FieldValue
  | .displayName => .str s.displayName
  | .username => .str s.username
  | .profileUrl => .str s.profileUrl
  | .bio => .str s.bio
  | .location => .str s.location
  | .interests => .strs s.interests
  | .status => .str s.status
  | .photoUrl => .str s.photoUrl
  | .visibility => .str s.visibility
  | .showLocation => .flag s.showLocation
  | .allowSearch => .flag s.allowSearch
  | .emailNotifications => .flag s.emailNotifications
  | .productUpdates => .flag s.productUpdates
  | .newFollowerAlerts => .flag s.newFollowerAlerts
  | .weeklyDigest => .flag s.weeklyDigest
  | .pauseNotifications => .str s.pauseNotifications
  | .theme => .str s.theme

/-- Embedding of `sectionFieldMap` (App.jsx:1968-1988); sections without an
entry (`account`, `help`) get the `|| []` fallback of App.jsx:1991. -/
def sectionFieldMap : SectionId → List FieldId
  | .profile =>
      [.displayName, .username, .profileUrl, .bio, .location, .interests,
       .status, .photoUrl]
  | .privacy => [.visibility, .showLocation, .allowSearch]
  | .notifications =>
      [.emailNotifications, .productUpdates, .newFollowerAlerts,
       .weeklyDigest, .pauseNotifications]
  | .appearance => [.theme]
  | .account => []
  | .help => []

/-- Embedding of `hasSectionChanges` (App.jsx:1990-1995): some field of the
section's field list differs between `saved` and `draft`. -/
def hasSectionChanges (saved draft : SettingsFields) (sectionId : SectionId) : Bool :=
  (sectionFieldMap sectionId).any fun f => getField saved f != getField draft f

/-! ### Availability checker (`checkAvailability`, App.jsx:2110-2159)

Two models share the status vocabulary:
* `checkAvailability` is the synchronous decision logic of a single call,
  with the lookup response passed explicitly (claims C3, C5);
* `availStep`/`runAvail` is the request-fencing automaton over the
  per-field sequence counters of `availabilityRequestRef` (claim C1). -/

/-- Availability status per field (`neutral`, `success`, `error`). -/
inductive AvStatus where
  | neutral | success | error
deriving DecidableEq

/-- The two fields that have availability checks. -/
inductive AvField where
  | username | profileUrl
deriving DecidableEq

/-- Outcome of one `GET /auth/profile/username/` or `/auth/profile/url/`
lookup: a parsed response with its `available` flag, or a request failure. -/
inductive ApiResult where
  | ok (available : Bool)
  | err
deriving DecidableEq

/-- The saved value consulted by `checkAvailability` (App.jsx:2118-2121). -/
def savedHandle (saved : SettingsFields) : AvField → String
  | .username => saved.username
  | .profileUrl => saved.profileUrl

/-- Embedding of a single `checkAvailability(field, value)` call
(App.jsx:2110-2159) given the lookup outcome `resp`.  Returns the status it
commits (and returns) together with whether a network lookup was issued. -/
def checkAvailability (saved : SettingsFields) (token : String) (field : AvField)
    (value : String) (resp : ApiResult) : AvStatus × Bool :=
  let trimmed := jsTrim value
  let normalized := lowerStr trimmed
  if trimmed == "" || !usernamePattern trimmed then (.neutral, false)
  else
    let savedValue := lowerStr (jsTrim (savedHandle saved field))
    if savedValue != "" && normalized == savedValue then (.success, false)
    else if reservedHandles.contains normalized then (.error, false)
    else if token == "" then (.neutral, false)
    else
      match resp with
      | .ok true => (.success, true)
      | .ok false => (.error, true)
      | .err => (.neutral, true)

/-- State of the fencing mechanism: the `availabilityRequestRef` counters
and the committed `availability` statuses, per field. -/
structure AvailTracker where
  ctrU : Nat
  ctrP : Nat
  statU : AvStatus
  statP : AvStatus
deriving DecidableEq

/-- Read a field's sequence counter. -/
def getCtr (t : AvailTracker) : AvField → Nat
  | .username => t.ctrU
  | .profileUrl => t.ctrP

/-- Write a field's sequence counter. -/
def setCtr (t : AvailTracker) : AvField → Nat → AvailTracker
  | .username, n => { t with ctrU := n }
  | .profileUrl, n => { t with ctrP := n }

/-- Read a field's committed availability status. -/
def getStat (t : AvailTracker) : AvField → AvStatus
  | .username => t.statU
  | .profileUrl => t.statP

/-- Write a field's committed availability status. -/
def setStat (t : AvailTracker) : AvField → AvStatus → AvailTracker
  | .username, v => { t with statU := v }
  | .profileUrl, v => { t with statP := v }

/-- Map a lookup outcome to the status the response handler commits:
`available → success`, not available → `error`, failure → `neutral`
(App.jsx:2145-2156). -/
def interp : ApiResult → AvStatus
  | .ok true => .success
  | .ok false => .error
  | .err => .neutral

/-- Asynchronous events of the checker: `issue f` is a call reaching the
lookup (it increments the field's counter and captures `nextId`,
App.jsx:2134-2135); `respond f id r` is the arrival of the response for
the request that captured `id`. -/
inductive AvailEvent where
  | issue (f : AvField)
  | respond (f : AvField) (id : Nat) (r : ApiResult)
deriving DecidableEq

/-- One step of the fencing automaton.  A response is applied only when its
captured id is still the field's latest counter value (App.jsx:2142-2156);
otherwise it is discarded without touching the committed status. -/
def availStep (t : AvailTracker) : AvailEvent → AvailTracker
  | .issue f => setCtr t f (getCtr t f + 1)
  | .respond f id r => if getCtr t f = id then setStat t f (interp r) else t

/-- Run the fencing automaton over a list of events. -/
def runAvail (t : AvailTracker) (es : List AvailEvent) : AvailTracker :=
  es.foldl availStep t

/-- Whether an event is an `issue` for field `f`. -/
def isIssueFor (f : AvField) : AvailEvent → Bool
  | .issue g => g == f
  | _ => false

/-- Whether an event is a response for field `f` carrying captured id `n`. -/
def isRespondFor (f : AvField) (n : Nat) : AvailEvent → Bool
  | .respond g id _ => g == f && id == n
  | _ => false

/-! ### Settings page state and navigation guard (App.jsx:1750-2108, 3644-3678) -/

/-- The `profileErrors` map; `validateProfile` (App.jsx:2169-2197) sets the
first six keys, the server error mapping (App.jsx:2259-2284) can also set
`location`. -/
structure ProfileErrors where
  displayName : Option String
  username : Option String
  profileUrl : Option String
  bio : Option String
  status : Option String
  interests : Option String
  location : Option String
deriving DecidableEq

/-- The empty `profileErrors` map (`{}`). -/
def noProfileErrors : ProfileErrors :=
  { displayName := none, username := none, profileUrl := none, bio := none,
    status := none, interests := none, location := none }

/-- The `passwordDraft` state (App.jsx:1794-1798), kept outside the
`saved`/`draft` pair. -/
structure PasswordDraft where
  current : String
  next : String
  confirm : String
deriving DecidableEq

/-- The `emailDraft` state (App.jsx:1799-1802), kept outside the
`saved`/`draft` pair. -/
structure EmailDraft where
  email : String
  password : String
deriving DecidableEq

/-- Which page the router shows (`navigate("/profile")` leaves settings). -/
inductive Route where
  | settings | profilePage
deriving DecidableEq

/-- A pending navigation recorded in `pendingSection`: another section id, a
literal `"back"` (leave settings for the profile page, App.jsx:3548-3559),
or a literal `"list"` (back to the mobile section list, App.jsx:2098-2108). -/
inductive NavTarget where
  | sec (s : SectionId)
  | back
  | list
deriving DecidableEq

/-- The settings page state relevant to the navigation guard and the save
flow.  Focusable controls are identified by numbers; `lastActive` is the
`lastActiveElement` ref and `focused` the currently focused control. -/
structure SettingsState where
  activeSection : SectionId
  saved : SettingsFields
  draft : SettingsFields
  profileErrors : ProfileErrors
  interestInput : String
  availability : AvStatus × AvStatus
  pendingSection : Option NavTarget
  discardOpen : Bool
  lastActive : Option Nat
  focused : Option Nat
  showMobileList : Bool
  isMobile : Bool
  route : Route
  searchTab : Option SectionId
  passwordDraft : PasswordDraft
  emailDraft : EmailDraft
  toast : Option (String × String)
deriving DecidableEq

/-- Embedding of `applySection` (App.jsx:2062-2074): set the active section,
write the `tab` search param, and close the mobile list on mobile. -/
def applySection (st : SettingsState) (sectionId : SectionId) : SettingsState :=
  { st with
    activeSection := sectionId
    searchTab := some sectionId
    showMobileList := if st.isMobile then false else st.showMobileList }

/-- Embedding of `rememberFocus` (App.jsx:1957-1959). -/
def rememberFocus (st : SettingsState) (trigger : Nat) : SettingsState :=
  { st with lastActive := some trigger }

/-- Embedding of `restoreFocus` (App.jsx:1961-1966). -/
def restoreFocus (st : SettingsState) : SettingsState :=
  match st.lastActive with
  | some e => { st with focused := some e }
  | none => st

/-- Embedding of `handleSectionChange` (App.jsx:2076-2090): a switch away
from a dirty section is intercepted by the discard prompt, otherwise the
navigation is applied directly. -/
def handleSectionChange (st : SettingsState) (sectionId : SectionId)
    (trigger : Nat) : SettingsState :=
  if sectionId = st.activeSection then
    if st.isMobile then { st with showMobileList := false } else st
  else if hasSectionChanges st.saved st.draft st.activeSection then
    { rememberFocus st trigger with
      pendingSection := some (.sec sectionId), discardOpen := true }
  else applySection st sectionId

/-- Embedding of `handleBackToList` (App.jsx:2098-2108). -/
def handleBackToList (st : SettingsState) (trigger : Nat) : SettingsState :=
  if hasSectionChanges st.saved st.draft st.activeSection then
    { rememberFocus st trigger with
      pendingSection := some .list, discardOpen := true }
  else
    { st with pendingSection := none, showMobileList := true, searchTab := none }

/-- Embedding of the settings back button (App.jsx:3548-3559): leaving the
settings page entirely is guarded the same way. -/
def handleBackToProfile (st : SettingsState) (trigger : Nat) : SettingsState :=
  if hasSectionChanges st.saved st.draft st.activeSection then
    { rememberFocus st trigger with
      pendingSection := some .back, discardOpen := true }
  else { st with route := .profilePage }

/-- Embedding of the discard dialog's `onConfirm` (App.jsx:3654-3675):
reset `draft` to `saved`, clear errors, interest input and availability,
close the dialog, then complete the pending navigation. -/
def handleDiscardConfirm (st : SettingsState) : SettingsState :=
  let st1 :=
    { st with
      draft := st.saved
      profileErrors := noProfileErrors
      interestInput := ""
      availability := (.neutral, .neutral)
      discardOpen := false }
  match st1.pendingSection with
  | some .back => { st1 with route := .profilePage, pendingSection := none }
  | some .list =>
      { st1 with showMobileList := true, searchTab := none, pendingSection := none }
  | some (.sec s) => { applySection st1 s with pendingSection := none }
  | none => { st1 with pendingSection := none }

/-- Embedding of `handleDiscardCancel` (App.jsx:2092-2096): close the
dialog, drop the pending navigation, restore focus to the trigger. -/
def handleDiscardCancel (st : SettingsState) : SettingsState :=
  restoreFocus { st with discardOpen := false, pendingSection := none }

/-! ### Saving a section (`handleSave`, App.jsx:2199-2423) -/

/-- JS `x || d` for an optional string `x` (absent and `""` are falsy). -/
def jsOrStr (o : Option String) (d : String) : String :=
  match o with
  | some s => if s == "" then d else s
  | none => d

/-- JS truthiness of an optional string. -/
def truthyStr (o : Option String) : Bool :=
  match o with
  | some s => s != ""
  | none => false

/-- JS truthiness of an optional boolean. -/
def truthyB (o : Option Bool) : Bool :=
  o == some true

/-- The `profile` object of a server response; absent keys are `none`. -/
structure ServerProfile where
  display_name : Option String
  username : Option String
  profile_url : Option String
  status : Option String
  bio : Option String
  location : Option String
  interests : Option (List String)
  photo_url : Option String
  visibility : Option String
  theme : Option String
  show_location : Option Bool
  allow_search : Option Bool
deriving DecidableEq

/-- A successful `PATCH /auth/profile/` response body; `data?.profile` may
be absent. -/
structure SaveResponse where
  profile : Option ServerProfile
deriving DecidableEq

/-- The `data.errors` map of a failed save (App.jsx:2259-2281). -/
structure ApiErrors where
  display_name : Option String
  username : Option String
  profile_url : Option String
  status : Option String
  bio : Option String
  location : Option String
  interests : Option String
deriving DecidableEq

/-- Outcome of the mutating `PATCH` request. -/
inductive PatchResult where
  | ok (resp : SaveResponse)
  | fail (e : ApiErrors)
deriving DecidableEq

/-- Environment of one profile save: the session token, the outcomes of the
two availability lookups re-checked by `validateAvailability`
(App.jsx:2161-2167), and the outcome of the `PATCH` request. -/
structure ProfileSaveEnv where
  token : String
  usernameResp : ApiResult
  profileUrlResp : ApiResult
  patchResult : PatchResult
deriving DecidableEq

/-- Embedding of `validateProfile` (App.jsx:2169-2197) as the error map it
computes from the draft. -/
def validateProfile (draft : SettingsFields) : ProfileErrors :=
  { displayName :=
      if jsTrim draft.displayName == "" then some "Display name is required."
      else if (jsTrim draft.displayName).data.length < 2 then
        some "Display name must be at least 2 characters."
      else none
    username :=
      if jsTrim draft.username == "" then some "Username is required."
      else if !usernamePattern (jsTrim draft.username) then
        some "Use 3-30 letters, numbers, or ._- in your username."
      else none
    profileUrl :=
      if jsTrim draft.profileUrl == "" then some "Profile URL base is required."
      else if !usernamePattern (jsTrim draft.profileUrl) then
        some "Profile URL must match username rules."
      else none
    bio :=
      if draft.bio.data.length > 160 then some "Bio must be 160 characters or less."
      else none
    status :=
      if draft.status.data.length > 80 then
        some "Status must be 80 characters or less."
      else none
    interests :=
      if draft.interests.length > 5 then some "Add up to 5 interests." else none
    location := none }

/-- The `nextFields` object built from a profile-save response
(App.jsx:2234-2247); `saved` is the saved state captured at save time, used
by the `visibility`/`theme`/`showLocation`/`allowSearch` fallbacks. -/
def profileNextFields (p : ServerProfile) (saved : SettingsFields)
    (prev : SettingsFields) : SettingsFields :=
  { prev with
    displayName := jsOrStr p.display_name ""
    username := jsOrStr p.username ""
    profileUrl := jsOrStr p.profile_url ""
    status := jsOrStr p.status ""
    bio := jsOrStr p.bio ""
    location := jsOrStr p.location ""
    interests := match p.interests with | some l => l | none => []
    photoUrl := jsOrStr p.photo_url ""
    visibility := jsOrStr p.visibility (jsOrStr (some saved.visibility) "public")
    theme := jsOrStr p.theme (jsOrStr (some saved.theme) "system")
    showLocation := truthyB p.show_location &&
      (truthyStr p.location || saved.location != "")
    allowSearch :=
      match p.allow_search with | some b => b | none => saved.allowSearch }

/-- The server field errors mapped back onto `profileErrors` keys
(App.jsx:2259-2281). -/
def mapApiErrors (e : ApiErrors) : ProfileErrors :=
  { displayName := e.display_name
    username := e.username
    profileUrl := e.profile_url
    status := e.status
    bio := e.bio
    interests := e.interests
    location := e.location }

/-- Embedding of the `activeSection === "profile"` branch of `handleSave`
(App.jsx:2199-2289).  Returns whether the mutating `PATCH` request was
issued, together with the resulting state.  `setIsSaving` is presentation
state and is elided; toast texts derived from the error object by
`shortMessageFromError` are abstracted to a fixed summary, since no claim
depends on the message contents, only on which branch ran. -/
def handleSaveProfile (st : SettingsState) (env : ProfileSaveEnv) :
    Bool × SettingsState :=
  if !hasSectionChanges st.saved st.draft .profile then (false, st)
  else
    let errs := validateProfile st.draft
    let st1 := { st with profileErrors := errs }
    if !(errs == noProfileErrors) then (false, st1)
    else
      let us := checkAvailability st1.saved env.token .username
        st1.draft.username env.usernameResp
      let ps := checkAvailability st1.saved env.token .profileUrl
        st1.draft.profileUrl env.profileUrlResp
      let st2 := { st1 with availability := (us.1, ps.1) }
      if us.1 == AvStatus.error || ps.1 == AvStatus.error then (false, st2)
      else if env.token == "" then
        (false, { st2 with toast := some ("Session expired. Please log in again.", "warning") })
      else
        match env.patchResult with
        | .ok resp =>
            let st3 :=
              match resp.profile with
              | some p =>
                  { st2 with
                    saved := profileNextFields p st2.saved st2.saved
                    draft := profileNextFields p st2.saved st2.draft
                    interestInput := "" }
              | none => st2
            (true,
              { st3 with
                profileErrors := noProfileErrors
                availability := (.neutral, .neutral)
                toast := some ("Profile updated successfully.", "success") })
        | .fail e =>
            let mapped := mapApiErrors e
            let st4 :=
              if mapped == noProfileErrors then st2
              else { st2 with profileErrors := mapped }
            (true, { st4 with toast := some ("Save failed", "error") })

/-- The privacy `nextFields` object (App.jsx:2316-2321). -/
def privacyNextFields (p : ServerProfile) (saved : SettingsFields)
    (prev : SettingsFields) : SettingsFields :=
  { prev with
    visibility := jsOrStr p.visibility "public"
    showLocation := truthyB p.show_location &&
      (truthyStr p.location || saved.location != "")
    allowSearch := truthyB p.allow_search }

/-- Embedding of the `activeSection === "privacy"` branch of `handleSave`
(App.jsx:2291-2342).  When the successful response carries no `profile`
object, the code commits the drafted privacy values into `saved`
(App.jsx:2324-2331). -/
def handleSavePrivacy (st : SettingsState) (token : String)
    (patchResult : PatchResult) : Bool × SettingsState :=
  if !hasSectionChanges st.saved st.draft .privacy then (false, st)
  else if token == "" then
    (false, { st with toast := some ("Session expired. Please log in again.", "warning") })
  else
    match patchResult with
    | .ok resp =>
        let st3 :=
          match resp.profile with
          | some p =>
              { st with
                saved := privacyNextFields p st.saved st.saved
                draft := privacyNextFields p st.saved st.draft }
          | none =>
              { st with
                saved :=
                  { st.saved with
                    visibility := st.draft.visibility
                    showLocation := st.draft.showLocation
                    allowSearch := st.draft.allowSearch } }
        (true, { st3 with toast := some ("Privacy settings updated.", "success") })
    | .fail _ => (true, { st with toast := some ("Save failed", "error") })

/-- Embedding of the `activeSection === "appearance"` branch of `handleSave`
(App.jsx:2370-2415).  When the successful response carries a profile
object, `saved.theme`/`draft.theme` are set to
`profile.theme || draft.theme || "system"` (App.jsx:2396-2401) — so an
absent or empty server theme falls back to the drafted theme; when the
response lacks a profile object, the drafted theme is committed into
`saved` directly (App.jsx:2402-2404). -/
def handleSaveAppearance (st : SettingsState) (token : String)
    (patchResult : PatchResult) : Bool × SettingsState :=
  if !hasSectionChanges st.saved st.draft .appearance then (false, st)
  else if token == "" then
    (false, { st with toast := some ("Session expired. Please log in again.", "warning") })
  else
    match patchResult with
    | .ok resp =>
        let st3 :=
          match resp.profile with
          | some p =>
              let nextTheme := jsOrStr p.theme (jsOrStr (some st.draft.theme) "system")
              { st with
                saved := { st.saved with theme := nextTheme }
                draft := { st.draft with theme := nextTheme } }
          | none => { st with saved := { st.saved with theme := st.draft.theme } }
        (true, { st3 with toast := some ("Appearance updated.", "success") })
    | .fail _ => (true, { st with toast := some ("Save failed", "error") })

/-- A concrete saved profile used by witness instantiations. -/
def sampleSaved : SettingsFields :=
  { displayName := "Mika Franco", username := "mika", profileUrl := "mika",
    bio := "", location := "", interests := [], status := "", photoUrl := "",
    visibility := "public", showLocation := false, allowSearch := false,
    emailNotifications := true, productUpdates := true,
    newFollowerAlerts := false, weeklyDigest := false,
    pauseNotifications := "off", theme := "system" }

/-- A concrete settings state on the account section with unsubmitted
password-change input, used by witness instantiations. -/
def sampleAccountState : SettingsState :=
  { activeSection := .account, saved := sampleSaved, draft := sampleSaved,
    profileErrors := noProfileErrors, interestInput := "",
    availability := (.neutral, .neutral), pendingSection := none,
    discardOpen := false, lastActive := none, focused := none,
    showMobileList := false, isMobile := false, route := .settings,
    searchTab := some .account,
    passwordDraft := { current := "old", next := "newpassword", confirm := "newpassword" },
    emailDraft := { email := "", password := "" }, toast := none }

/-- A concrete settings state with a dirty profile section (edited bio),
used by witness instantiations. -/
def sampleDirtyState : SettingsState :=
  { sampleAccountState with
    activeSection := .profile
    draft := { sampleSaved with bio := "x" }
    searchTab := some .profile }

/-- A concrete settings state with a drafted privacy edit
(visibility `private`), used by concrete instantiations. -/
def samplePrivacyDraftA : SettingsState :=
  { sampleAccountState with
    activeSection := .privacy
    draft := { sampleSaved with visibility := "private" }
    searchTab := some .privacy }

/-- Like `samplePrivacyDraftA` but with a different drafted visibility. -/
def samplePrivacyDraftB : SettingsState :=
  { sampleAccountState with
    activeSection := .privacy
    draft := { sampleSaved with visibility := "hidden" }
    searchTab := some .privacy }

/-- A concrete settings state with a drafted appearance edit
(theme `dark`), used by concrete instantiations. -/
def sampleAppearanceDraftA : SettingsState :=
  { sampleAccountState with
    activeSection := .appearance
    draft := { sampleSaved with theme := "dark" }
    searchTab := some .appearance }

/-- Like `sampleAppearanceDraftA` but with a different drafted theme. -/
def sampleAppearanceDraftB : SettingsState :=
  { sampleAccountState with
    activeSection := .appearance
    draft := { sampleSaved with theme := "light" }
    searchTab := some .appearance }

/-- A server profile object carrying no keys at all (in particular no
`theme`), used by concrete instantiations. -/
def sampleServerProfileNoTheme : ServerProfile :=
  { display_name := none, username := none, profile_url := none,
    status := none, bio := none, location := none, interests := none,
    photo_url := none, visibility := none, theme := none,
    show_location := none, allow_search := none }

/-- A concrete server profile response, used by witness instantiations. -/
def sampleServerProfile : ServerProfile :=
  { display_name := some "Mika Server", username := some "mika",
    profile_url := some "mika", status := none, bio := none, location := none,
    interests := some [], photo_url := none, visibility := some "public",
    theme := some "system", show_location := none, allow_search := none }

/-- A concrete save environment, used by witness instantiations. -/
def sampleEnv : ProfileSaveEnv :=
  { token := "tok", usernameResp := .err, profileUrlResp := .err,
    patchResult := .ok ⟨some sampleServerProfile⟩ }

/-! ### Helper lemmas -/

theorem jsOrStr_some_nil (s : String) : jsOrStr (some s) "" = s := by
  simp only [jsOrStr]
  split
  next h => exact (beq_iff_eq.mp h).symm
  next h => rfl

theorem handleSaveProfile_saved_of_ok (st : SettingsState) (env : ProfileSaveEnv)
    (resp : SaveResponse) (p : ServerProfile)
    (henv : env.patchResult = .ok resp) (hprof : resp.profile = some p)
    (hissued : (handleSaveProfile st env).1 = true) :
    (handleSaveProfile st env).2.saved = profileNextFields p st.saved st.saved := by
  by_cases hD : hasSectionChanges st.saved st.draft .profile = true
  · by_cases hV : validateProfile st.draft = noProfileErrors
    · have hVb : (validateProfile st.draft == noProfileErrors) = true :=
        beq_iff_eq.mpr hV
      by_cases hc :
          ((checkAvailability st.saved env.token .username
              st.draft.username env.usernameResp).1 == AvStatus.error ||
           (checkAvailability st.saved env.token .profileUrl
              st.draft.profileUrl env.profileUrlResp).1 == AvStatus.error)
            = true
      · exfalso
        simp [handleSaveProfile, hD, hVb, hc] at hissued
      · have hc' := Bool.eq_false_iff.mpr hc
        by_cases htk : (env.token == "") = true
        · exfalso
          simp [handleSaveProfile, hD, hVb, hc', htk] at hissued
        · have htk' := Bool.eq_false_iff.mpr htk
          simp [handleSaveProfile, hD, hVb, hc', htk', henv, hprof]
    · have hVb : (validateProfile st.draft == noProfileErrors) = false :=
        beq_eq_false_iff_ne.mpr hV
      exfalso
      simp [handleSaveProfile, hD, hVb] at hissued
  · have hDf : hasSectionChanges st.saved st.draft .profile = false :=
      Bool.eq_false_iff.mpr hD
    exfalso
    simp [handleSaveProfile, hDf] at hissued

theorem usernamePattern_ne_empty {s : String} (h : usernamePattern s = true) :
    s ≠ "" := by
  intro heq
  subst heq
  exact absurd h (by decide)

theorem lowerStr_ne_empty {s : String} (h : s ≠ "") : lowerStr s ≠ "" := by
  intro hl
  apply h
  have hdata : s.data.map Char.toLower = [] := by
    have hcong := congrArg String.data hl
    simpa [lowerStr] using hcong
  have hnil : s.data = [] := List.map_eq_nil_iff.mp hdata
  cases s with
  | mk data =>
      simp only [String.data] at hnil
      subst hnil
      decide

theorem toastStep_inv (s : ToastState) (e : ToastEvent) (h : ToastInv s) :
    ToastInv (toastStep s e) := by
  cases e with
  | showEv m k =>
      refine Or.inr ⟨s.nextId, rfl, ?_⟩
      rcases h with h | ⟨t, ht, hp⟩
      · simp only [toastStep, showToast]
        cases s.timerRef <;> simp [h]
      · simp [toastStep, showToast, ht, hp]
  | fireEv id =>
      rcases h with h | ⟨t, ht, hp⟩
      · simp only [toastStep, fireTimer, h]
        simp only [List.not_mem_nil, if_false]
        exact Or.inl h
      · by_cases hid : id ∈ s.pending
        · left
          have hidt : id = t := by
            rw [hp] at hid
            simpa using hid
          subst hidt
          simp [toastStep, fireTimer, hid, hp]
        · simp only [toastStep, fireTimer, hid, if_false]
          exact Or.inr ⟨t, ht, hp⟩

theorem runToast_inv (es : List ToastEvent) (s : ToastState) (h : ToastInv s) :
    ToastInv (runToast s es) := by
  induction es generalizing s with
  | nil => exact h
  | cons e es ih => exact ih _ (toastStep_inv s e h)

theorem dropWhile_eq_self_of_all {l : List Char} {p : Char → Bool}
    (h : ∀ c ∈ l, p c = false) : l.dropWhile p = l := by
  cases l with
  | nil => rfl
  | cons c cs => simp [List.dropWhile, h c (by simp)]

theorem jsTrim_eq_self_of_handle {s : String} (h : s.data.all isHandleChar = true) :
    jsTrim s = s := by
  have hsp : ∀ c ∈ s.data, isJsSpace c = false := by
    intro c hc
    have hch : isHandleChar c = true := by
      rw [List.all_eq_true] at h
      exact h c hc
    by_contra hns
    rw [Bool.not_eq_false] at hns
    simp only [isJsSpace, Bool.or_eq_true, beq_iff_eq] at hns
    rcases hns with ((((rfl | rfl) | rfl) | rfl) | rfl) | rfl <;>
      exact absurd hch (by decide)
  have hrev : ∀ c ∈ s.data.reverse, isJsSpace c = false := by
    intro c hc
    exact hsp c (List.mem_reverse.mp hc)
  cases s with
  | mk data =>
      simp only [jsTrim]
      rw [dropWhile_eq_self_of_all hsp, dropWhile_eq_self_of_all hrev,
        List.reverse_reverse]

theorem getCtr_availStep_of_not_issue (t : AvailTracker) (e : AvailEvent)
    (f : AvField) (h : isIssueFor f e = false) :
    getCtr (availStep t e) f = getCtr t f := by
  cases e with
  | issue g =>
      simp only [isIssueFor, beq_iff_eq] at h
      cases f <;> cases g <;> simp_all [availStep, setCtr, getCtr]
  | respond g id r =>
      simp only [availStep]
      split
      · cases f <;> cases g <;> simp [setStat, getCtr]
      · rfl

theorem getStat_availStep_untouched (t : AvailTracker) (e : AvailEvent)
    (f : AvField) (hr : isRespondFor f (getCtr t f) e = false) :
    getStat (availStep t e) f = getStat t f := by
  cases e with
  | issue g => cases f <;> cases g <;> simp [availStep, setCtr, getStat]
  | respond g id r =>
      by_cases hg : g = f
      · subst hg
        simp only [isRespondFor, beq_self_eq_true, Bool.true_and,
          beq_eq_false_iff_ne] at hr
        simp only [availStep]
        rw [if_neg (fun hEq => hr hEq.symm)]
      · simp only [availStep]
        split
        · cases f <;> cases g <;> simp_all [setStat, getStat]
        · rfl

theorem runAvail_untouched (f : AvField) (es : List AvailEvent) (t : AvailTracker)
    (hIss : ∀ e ∈ es, isIssueFor f e = false)
    (hResp : ∀ e ∈ es, isRespondFor f (getCtr t f) e = false) :
    getCtr (runAvail t es) f = getCtr t f ∧
      getStat (runAvail t es) f = getStat t f := by
  induction es generalizing t with
  | nil => exact ⟨rfl, rfl⟩
  | cons e es ih =>
      have hi : isIssueFor f e = false := hIss e (by simp)
      have hre : isRespondFor f (getCtr t f) e = false := hResp e (by simp)
      have hctr : getCtr (availStep t e) f = getCtr t f :=
        getCtr_availStep_of_not_issue t e f hi
      have hstat : getStat (availStep t e) f = getStat t f :=
        getStat_availStep_untouched t e f hre
      have hrec := ih (availStep t e)
        (fun e' he' => hIss e' (List.mem_cons_of_mem _ he'))
        (fun e' he' => by rw [hctr]; exact hResp e' (List.mem_cons_of_mem _ he'))
      exact ⟨by rw [runAvail] at hrec ⊢; rw [List.foldl_cons, hrec.1, hctr],
        by rw [runAvail] at hrec ⊢; rw [List.foldl_cons, hrec.2, hstat]⟩

/-! ### Claim theorems -/

/-- C7: every `logout` invocation clears the local session state (token and
user) and removes the durable storage record, regardless of whether the
best-effort server logout notification succeeds or fails; a server failure
is only logged and never prevents the local clearing. -/
theorem logout_always_clears (s : SessionState) (serverOutcome : Except String Unit) :
    (logout s serverOutcome).token = "" ∧ (logout s serverOutcome).user = none ∧
      (logout s serverOutcome).storage = none :=
  ⟨rfl, rfl, rfl⟩

/-- C4: for every saved/draft state and every settings section,
`hasSectionChanges` holds exactly when some field of the section's declared
field list differs (by deep equality) between `saved` and `draft`; hence a
no-op edit (draft field rewritten to its saved value) leaves the section
clean and any change to a listed field makes it dirty. -/
theorem hasSectionChanges_iff (saved draft : SettingsFields) (sectionId : SectionId) :
    hasSectionChanges saved draft sectionId = true ↔
      ∃ f ∈ sectionFieldMap sectionId, getField saved f ≠ getField draft f := by
  simp [hasSectionChanges, List.any_eq_true, bne_iff_ne]

/-- C9: at most one toast and at most one auto-dismiss timer are ever
active: after any event history, at most one timeout is scheduled; showing
a second message right after a first leaves exactly the second message
displayed with a single scheduled timer (the second call's), and the first
call's timer has been cancelled, so its firing is a no-op. -/
theorem toast_single_timer (es : List ToastEvent) (m1 k1 m2 k2 : String) :
    (runToast initToastState es).pending.length ≤ 1 ∧
    (showToast (showToast (runToast initToastState es) m1 k1) m2 k2).toast
        = some ⟨m2, k2⟩ ∧
    (showToast (showToast (runToast initToastState es) m1 k1) m2 k2).pending
        = [(runToast initToastState es).nextId + 1] ∧
    fireTimer (showToast (showToast (runToast initToastState es) m1 k1) m2 k2)
        (runToast initToastState es).nextId
      = showToast (showToast (runToast initToastState es) m1 k1) m2 k2 := by
  have hinv : ToastInv (runToast initToastState es) :=
    runToast_inv es initToastState (Or.inl rfl)
  set s := runToast initToastState es with hs
  have h1 : (showToast s m1 k1).pending = [s.nextId] := by
    rcases hinv with h | ⟨t, ht, hp⟩
    · simp only [showToast]
      cases s.timerRef <;> simp [h]
    · simp [showToast, ht, hp]
  have hlen : s.pending.length ≤ 1 := by
    rcases hinv with h | ⟨t, ht, hp⟩
    · simp [h]
    · simp [hp]
  have h2 : (showToast (showToast s m1 k1) m2 k2).pending
      = ((showToast s m1 k1).pending.erase s.nextId) ++ [s.nextId + 1] := rfl
  rw [h1] at h2
  simp only [List.erase_cons_head, List.nil_append] at h2
  refine ⟨hlen, rfl, h2, ?_⟩
  simp [fireTimer, h2]

/-- C8: login validation yields an identifier error exactly when the
trimmed identifier is empty, contains `@` but fails the email pattern, or
lacks `@` and fails the 3-30 character handle pattern; every identifier
that is a valid handle produces no identifier error; the password is only
required to be non-empty, with no format check. -/
theorem validateLogin_spec (values : LoginValues) :
    ((validateLogin values).identifier ≠ none ↔
      (jsTrim values.identifier = "" ∨
        ('@' ∈ (jsTrim values.identifier).data ∧
          emailPattern (jsTrim values.identifier) = false) ∨
        ('@' ∉ (jsTrim values.identifier).data ∧
          usernamePattern (jsTrim values.identifier) = false))) ∧
    (usernamePattern values.identifier = true →
      (validateLogin values).identifier = none) ∧
    ((validateLogin values).password ≠ none ↔ values.password = "") := by
  refine ⟨?_, ?_, ?_⟩
  · simp only [validateLogin]
    split_ifs with h1 h2 h3
    · simp only [beq_iff_eq] at h1
      simp [h1]
    · simp at h2
      exact iff_of_true (by simp) (Or.inr (Or.inl h2))
    · simp at h3
      exact iff_of_true (by simp) (Or.inr (Or.inr h3))
    · simp at h1 h2 h3
      refine iff_of_false (by simp) ?_
      rintro (he | ⟨hm, hmail⟩ | ⟨hnm, huser⟩)
      · exact h1 he
      · exact absurd (h2 hm) (by simp [hmail])
      · exact absurd (h3 hnm) (by simp [huser])
  · intro h
    have hall : values.identifier.data.all isHandleChar = true := by
      simp only [usernamePattern, Bool.and_eq_true] at h
      exact h.2
    have h3 : 3 ≤ values.identifier.data.length := by
      simp only [usernamePattern, Bool.and_eq_true, decide_eq_true_eq] at h
      exact h.1.1
    have htrim : jsTrim values.identifier = values.identifier :=
      jsTrim_eq_self_of_handle hall
    have hne : values.identifier ≠ "" := by
      intro heq
      rw [heq] at h3
      simp at h3
    have hnm : '@' ∉ values.identifier.data := fun hmem =>
      absurd ((List.all_eq_true.mp hall) '@' hmem) (by decide)
    simp [validateLogin, htrim, hne, hnm, h]
  · simp only [validateLogin]
    split_ifs with h1
    · simp only [beq_iff_eq] at h1
      simp [h1]
    · simp only [beq_iff_eq] at h1
      simp [h1]

/-- Witness for C8: the valid handle `alice` yields no identifier error. -/
theorem validateLogin_spec_witness :
    (validateLogin { identifier := "alice", password := "pw" }).identifier = none :=
  (validateLogin_spec { identifier := "alice", password := "pw" }).2.1 (by decide)

/-- C1: last request wins.  For any field, any starting tracker state, and
any interleaving of response arrivals after the last lookup for that field
was issued (so the trace `es` contains no further `issue` for the field and
exactly one response carrying the latest sequence number), the committed
availability status is the one determined by the latest-issued invocation;
every superseded response in the trace is discarded silently. -/
theorem availability_last_request_wins (f : AvField) (t : AvailTracker)
    (es : List AvailEvent) (r : ApiResult)
    (hIss : ∀ e ∈ es, isIssueFor f e = false)
    (hOnce : es.countP (isRespondFor f (getCtr t f)) = 1)
    (hMem : AvailEvent.respond f (getCtr t f) r ∈ es) :
    getStat (runAvail t es) f = interp r := by
  induction es generalizing t with
  | nil => simp at hMem
  | cons e es ih =>
      by_cases hp : isRespondFor f (getCtr t f) e = true
      · have hcnt : es.countP (isRespondFor f (getCtr t f)) = 0 := by
          rw [List.countP_cons, hp] at hOnce
          simpa using hOnce
        have hem : e = AvailEvent.respond f (getCtr t f) r := by
          rcases List.mem_cons.mp hMem with h | h
          · exact h.symm
          · exfalso
            have h0 := List.countP_eq_zero.mp hcnt _ h
            simp [isRespondFor] at h0
        subst hem
        have hstep : availStep t (AvailEvent.respond f (getCtr t f) r)
            = setStat t f (interp r) := by
          simp [availStep]
        have h1 : getCtr (setStat t f (interp r)) f = getCtr t f := by
          cases f <;> simp [setStat, getCtr]
        have h2 : getStat (setStat t f (interp r)) f = interp r := by
          cases f <;> simp [setStat, getStat]
        have hrest := runAvail_untouched f es (setStat t f (interp r))
          (fun e' he' => hIss e' (List.mem_cons_of_mem _ he'))
          (fun e' he' => by
            rw [h1]
            simpa using List.countP_eq_zero.mp hcnt e' he')
        have hrun : runAvail t (AvailEvent.respond f (getCtr t f) r :: es)
            = runAvail (setStat t f (interp r)) es := by
          rw [runAvail, runAvail, List.foldl_cons, hstep]
        rw [hrun, hrest.2, h2]
      · have hp' : isRespondFor f (getCtr t f) e = false :=
          Bool.eq_false_iff.mpr hp
        have hcnt : es.countP (isRespondFor f (getCtr t f)) = 1 := by
          rw [List.countP_cons, hp'] at hOnce
          simpa using hOnce
        have hmem' : AvailEvent.respond f (getCtr t f) r ∈ es := by
          rcases List.mem_cons.mp hMem with h | h
          · exfalso
            rw [← h] at hp'
            simp [isRespondFor] at hp'
          · exact h
        have hi : isIssueFor f e = false := hIss e (by simp)
        have hctr := getCtr_availStep_of_not_issue t e f hi
        have hrec := ih (availStep t e)
          (fun e' he' => hIss e' (List.mem_cons_of_mem _ he'))
          (by rw [hctr]; exact hcnt)
          (by rw [hctr]; exact hmem')
        have hrun : runAvail t (e :: es) = runAvail (availStep t e) es := by
          rw [runAvail, runAvail, List.foldl_cons]
        rw [hrun, hrec]

/-- Witness for C1: the `al` / `ali` / `alice` race.  Three lookups are
issued in order; the third's response (available) arrives first, then the
two superseded responses (unavailable) arrive late; the committed status is
the third invocation's result. -/
theorem availability_last_request_wins_witness :
    getStat (runAvail
      (runAvail ⟨0, 0, .neutral, .neutral⟩
        [.issue .username, .issue .username, .issue .username])
      [.respond .username 3 (.ok true), .respond .username 1 (.ok false),
       .respond .username 2 (.ok false)]) .username = AvStatus.success :=
  availability_last_request_wins .username
    (runAvail ⟨0, 0, .neutral, .neutral⟩
      [.issue .username, .issue .username, .issue .username])
    [.respond .username 3 (.ok true), .respond .username 1 (.ok false),
     .respond .username 2 (.ok false)]
    (.ok true) (by decide) (by decide) (by decide)

/-- C3: the decision logic of `checkAvailability` in the authenticated
settings flow (a session token is present).  The value is trimmed and
lower-cased, then: neutral with no lookup when the trimmed value is empty
or fails the handle pattern; success with no lookup when the normalized
value equals the (normalized) currently-saved value; error with no lookup
when it is a reserved handle; otherwise the authenticated lookup is issued
and the result is success on an affirmative response, error on a negative
one, and neutral on a request failure. -/
theorem checkAvailability_spec (saved : SettingsFields) (token : String)
    (field : AvField) (value : String) (resp : ApiResult) (htok : token ≠ "") :
    ((jsTrim value = "" ∨ usernamePattern (jsTrim value) = false) →
        checkAvailability saved token field value resp = (.neutral, false)) ∧
    (usernamePattern (jsTrim value) = true →
      lowerStr (jsTrim value) = lowerStr (jsTrim (savedHandle saved field)) →
        checkAvailability saved token field value resp = (.success, false)) ∧
    (usernamePattern (jsTrim value) = true →
      lowerStr (jsTrim value) ≠ lowerStr (jsTrim (savedHandle saved field)) →
      lowerStr (jsTrim value) ∈ reservedHandles →
        checkAvailability saved token field value resp = (.error, false)) ∧
    (usernamePattern (jsTrim value) = true →
      lowerStr (jsTrim value) ≠ lowerStr (jsTrim (savedHandle saved field)) →
      lowerStr (jsTrim value) ∉ reservedHandles →
        checkAvailability saved token field value resp = (interp resp, true)) := by
  have htokb : (token == "") = false := beq_eq_false_iff_ne.mpr htok
  refine ⟨?_, ?_, ?_, ?_⟩
  · rintro (h | h)
    · simp [checkAvailability, h]
    · simp [checkAvailability, h]
  · intro hpat heq
    have hne : jsTrim value ≠ "" := usernamePattern_ne_empty hpat
    have hbeq : (jsTrim value == "") = false := beq_eq_false_iff_ne.mpr hne
    have hsvne : lowerStr (jsTrim (savedHandle saved field)) ≠ "" :=
      heq ▸ lowerStr_ne_empty hne
    simp [checkAvailability, hbeq, hpat, heq, hsvne]
  · intro hpat hneq hres
    have hne : jsTrim value ≠ "" := usernamePattern_ne_empty hpat
    have hbeq : (jsTrim value == "") = false := beq_eq_false_iff_ne.mpr hne
    simp [checkAvailability, hbeq, hpat, hneq, hres]
  · intro hpat hneq hres
    have hne : jsTrim value ≠ "" := usernamePattern_ne_empty hpat
    have hbeq : (jsTrim value == "") = false := beq_eq_false_iff_ne.mpr hne
    cases resp with
    | ok b =>
        cases b <;> simp [checkAvailability, hbeq, hpat, hneq, hres, htokb, interp]
    | err => simp [checkAvailability, hbeq, hpat, hneq, hres, htokb, interp]

/-- Witness for C3: with saved username `mika`, checking `MIKA` normalizes
to the saved value and yields success without a network lookup. -/
theorem checkAvailability_spec_witness :
    checkAvailability sampleSaved "tok" .username "MIKA" .err
      = (AvStatus.success, false) :=
  (checkAvailability_spec sampleSaved "tok" .username "MIKA" .err
    (by decide)).2.1 (by decide) (by decide)

/-- C6: switching away from a dirty section (or leaving settings) is
intercepted by the discard prompt; confirming resets `draft` to `saved`,
clears transient errors and availability flags, and completes the pending
navigation; canceling leaves the draft unchanged, keeps the section open,
and restores focus to the triggering control. -/
theorem section_navigation_guard (st : SettingsState) (target : SectionId)
    (trigger : Nat)
    (hdirty : hasSectionChanges st.saved st.draft st.activeSection = true)
    (htarget : target ≠ st.activeSection) :
    ((handleSectionChange st target trigger).discardOpen = true ∧
     (handleSectionChange st target trigger).activeSection = st.activeSection ∧
     (handleSectionChange st target trigger).draft = st.draft ∧
     (handleSectionChange st target trigger).pendingSection
        = some (.sec target)) ∧
    ((handleDiscardConfirm (handleSectionChange st target trigger)).draft
        = st.saved ∧
     (handleDiscardConfirm (handleSectionChange st target trigger)).profileErrors
        = noProfileErrors ∧
     (handleDiscardConfirm (handleSectionChange st target trigger)).availability
        = (.neutral, .neutral) ∧
     (handleDiscardConfirm (handleSectionChange st target trigger)).activeSection
        = target ∧
     (handleDiscardConfirm (handleSectionChange st target trigger)).discardOpen
        = false) ∧
    ((handleDiscardCancel (handleSectionChange st target trigger)).draft
        = st.draft ∧
     (handleDiscardCancel (handleSectionChange st target trigger)).activeSection
        = st.activeSection ∧
     (handleDiscardCancel (handleSectionChange st target trigger)).discardOpen
        = false ∧
     (handleDiscardCancel (handleSectionChange st target trigger)).focused
        = some trigger) ∧
    ((handleBackToProfile st trigger).discardOpen = true ∧
     (handleBackToProfile st trigger).route = st.route ∧
     (handleBackToProfile st trigger).draft = st.draft ∧
     (handleDiscardConfirm (handleBackToProfile st trigger)).draft = st.saved ∧
     (handleDiscardConfirm (handleBackToProfile st trigger)).route
        = .profilePage ∧
     (handleDiscardCancel (handleBackToProfile st trigger)).draft = st.draft ∧
     (handleDiscardCancel (handleBackToProfile st trigger)).route = st.route ∧
     (handleDiscardCancel (handleBackToProfile st trigger)).focused
        = some trigger) := by
  simp [handleSectionChange, htarget, hdirty, rememberFocus,
    handleDiscardConfirm, applySection, handleDiscardCancel, restoreFocus,
    handleBackToProfile]

/-- Witness for C6: a dirty profile section intercepts a switch to the
privacy section; confirming resets the draft, canceling keeps it. -/
theorem section_navigation_guard_witness :
    (handleSectionChange sampleDirtyState .privacy 7).discardOpen = true ∧
    (handleDiscardConfirm (handleSectionChange sampleDirtyState .privacy 7)).draft
        = sampleDirtyState.saved ∧
    (handleDiscardCancel (handleSectionChange sampleDirtyState .privacy 7)).draft
        = sampleDirtyState.draft :=
  let h := section_navigation_guard sampleDirtyState .privacy 7 (by decide) (by decide)
  ⟨h.1.1, h.2.1.1, h.2.2.1.1⟩

/-- C10: the account and help sections have no entry in the section field
map, so they are never dirty, and switching away from them never triggers
the discard prompt — even though the state may hold unsubmitted
password-change or email-change input, which lives outside the
`saved`/`draft` pair. -/
theorem account_help_sections_never_dirty (saved draft : SettingsFields)
    (st : SettingsState) (target : SectionId) (trigger : Nat) :
    hasSectionChanges saved draft .account = false ∧
    hasSectionChanges saved draft .help = false ∧
    ((st.activeSection = .account ∨ st.activeSection = .help) →
      ((handleSectionChange st target trigger).discardOpen = st.discardOpen ∧
       (handleSectionChange st target trigger).pendingSection
          = st.pendingSection ∧
       (handleBackToProfile st trigger).discardOpen = st.discardOpen ∧
       (handleBackToList st trigger).discardOpen = st.discardOpen)) := by
  refine ⟨rfl, rfl, ?_⟩
  intro h
  have hd : hasSectionChanges st.saved st.draft st.activeSection = false := by
    rcases h with h | h <;> simp [h, hasSectionChanges, sectionFieldMap]
  by_cases ht : target = st.activeSection
  · by_cases hm : st.isMobile <;>
      simp [handleSectionChange, ht, hm, hd, applySection, handleBackToProfile,
        handleBackToList]
  · simp [handleSectionChange, ht, hd, applySection, handleBackToProfile,
      handleBackToList]

/-- Witness for C10: from the account section holding unsubmitted
password-change input, switching to the profile section opens no discard
prompt. -/
theorem account_help_sections_never_dirty_witness :
    (handleSectionChange sampleAccountState .profile 1).discardOpen
      = sampleAccountState.discardOpen :=
  ((account_help_sections_never_dirty sampleSaved sampleSaved
      sampleAccountState .profile 1).2.2 (Or.inl rfl)).1

/-- C5: the mutating `PATCH` of a profile save is issued only if the
section is dirty, local validation produces an empty error map, and the
re-checked availability of both username and profileUrl resolves to a
non-error status; whenever one of these preconditions fails, no mutating
request is issued and the draft is left unchanged. -/
theorem profile_save_gate (st : SettingsState) (env : ProfileSaveEnv) :
    ((handleSaveProfile st env).1 = true →
      (hasSectionChanges st.saved st.draft .profile = true ∧
       validateProfile st.draft = noProfileErrors ∧
       (checkAvailability st.saved env.token .username st.draft.username
          env.usernameResp).1 ≠ .error ∧
       (checkAvailability st.saved env.token .profileUrl st.draft.profileUrl
          env.profileUrlResp).1 ≠ .error)) ∧
    (¬(hasSectionChanges st.saved st.draft .profile = true ∧
       validateProfile st.draft = noProfileErrors ∧
       (checkAvailability st.saved env.token .username st.draft.username
          env.usernameResp).1 ≠ .error ∧
       (checkAvailability st.saved env.token .profileUrl st.draft.profileUrl
          env.profileUrlResp).1 ≠ .error) →
      (handleSaveProfile st env).1 = false ∧
      (handleSaveProfile st env).2.draft = st.draft) := by
  by_cases hD : hasSectionChanges st.saved st.draft .profile = true
  · by_cases hV : validateProfile st.draft = noProfileErrors
    · have hVb : (validateProfile st.draft == noProfileErrors) = true :=
        beq_iff_eq.mpr hV
      by_cases hE :
          (checkAvailability st.saved env.token .username st.draft.username
            env.usernameResp).1 = .error ∨
          (checkAvailability st.saved env.token .profileUrl st.draft.profileUrl
            env.profileUrlResp).1 = .error
      · have hcond :
            ((checkAvailability st.saved env.token .username st.draft.username
                env.usernameResp).1 == AvStatus.error ||
             (checkAvailability st.saved env.token .profileUrl
                st.draft.profileUrl env.profileUrlResp).1 == AvStatus.error)
              = true := by
          rcases hE with h | h <;> simp [h]
        constructor
        · intro h
          exfalso
          simp [handleSaveProfile, hD, hVb, hcond] at h
        · intro _
          simp [handleSaveProfile, hD, hVb, hcond]
      · push_neg at hE
        constructor
        · intro _
          exact ⟨hD, hV, hE.1, hE.2⟩
        · intro hcontra
          exact absurd ⟨hD, hV, hE.1, hE.2⟩ hcontra
    · have hVb : (validateProfile st.draft == noProfileErrors) = false :=
        beq_eq_false_iff_ne.mpr hV
      constructor
      · intro h
        exfalso
        simp [handleSaveProfile, hD, hVb] at h
      · intro _
        simp [handleSaveProfile, hD, hVb]
  · have hDf : hasSectionChanges st.saved st.draft .profile = false :=
      Bool.eq_false_iff.mpr hD
    constructor
    · intro h
      exfalso
      simp [handleSaveProfile, hDf] at h
    · intro _
      simp [handleSaveProfile, hDf]

/-- Witness for C5: saving a clean (not dirty) profile section issues no
request and leaves the draft unchanged. -/
theorem profile_save_gate_witness :
    (handleSaveProfile sampleAccountState sampleEnv).1 = false ∧
    (handleSaveProfile sampleAccountState sampleEnv).2.draft
      = sampleAccountState.draft :=
  (profile_save_gate sampleAccountState sampleEnv).2 (by decide)

/-- C2 counterexample: the claim says a successful save reconciles `saved`
to the server's response object and never to the drafted request body, but
(a) a successful privacy save whose response lacks a `profile` object
commits the drafted values (App.jsx:2324-2331): with the same starting
`saved` (whose visibility is `public`) and the same successful response,
two different drafts produce two different committed `saved.visibility`
values — each equal to its draft; and (b) even when the successful response
carries a `profile` object, an appearance save whose response profile lacks
a `theme` commits the drafted theme (App.jsx:2396-2401,
`profile.theme || draft.theme || "system"`): with the same starting `saved`
(theme `system`) and the same profile-carrying response, two different
drafts produce two different committed `saved.theme` values — each equal to
its draft. -/
theorem save_reconciliation_counterexample :
    ((handleSavePrivacy samplePrivacyDraftA "tok"
        (.ok ⟨none⟩)).2.saved.visibility = "private" ∧
     (handleSavePrivacy samplePrivacyDraftB "tok"
        (.ok ⟨none⟩)).2.saved.visibility = "hidden" ∧
     samplePrivacyDraftA.saved = samplePrivacyDraftB.saved ∧
     samplePrivacyDraftA.saved.visibility = "public" ∧
     samplePrivacyDraftA.draft.visibility = "private" ∧
     samplePrivacyDraftB.draft.visibility = "hidden") ∧
    ((handleSaveAppearance sampleAppearanceDraftA "tok"
        (.ok ⟨some sampleServerProfileNoTheme⟩)).2.saved.theme = "dark" ∧
     (handleSaveAppearance sampleAppearanceDraftB "tok"
        (.ok ⟨some sampleServerProfileNoTheme⟩)).2.saved.theme = "light" ∧
     sampleAppearanceDraftA.saved = sampleAppearanceDraftB.saved ∧
     sampleAppearanceDraftA.saved.theme = "system" ∧
     sampleAppearanceDraftA.draft.theme = "dark" ∧
     sampleAppearanceDraftB.draft.theme = "light" ∧
     sampleServerProfileNoTheme.theme = none) := by
  decide

/-- C2 amended: for every successful profile or privacy save whose response
carries a `profile` object, `saved` is reconciled field by field from the
response profile (with fallbacks only to the previous saved values) and is
independent of the draft: the committed `saved` is the same function of the
response and the old `saved` for any draft, and a profile save whose
response profile carries a `display_name` commits exactly that server value
(so a draft-differing server value wins over the draft).  The appearance
branch commits the server theme only when the response profile carries a
non-empty `theme`; when the theme is absent, the drafted theme is committed
even though the response carries a profile object, and when a successful
privacy or appearance response lacks a profile object entirely, the drafted
values are committed into `saved` — the content of the counterexample. -/
theorem save_reconciliation_amended :
    (∀ (st : SettingsState) (env : ProfileSaveEnv) (resp : SaveResponse)
        (p : ServerProfile) (s : String),
      env.patchResult = .ok resp → resp.profile = some p →
      p.display_name = some s →
      (handleSaveProfile st env).1 = true →
        ((handleSaveProfile st env).2.saved.displayName = s ∧
         (s ≠ st.draft.displayName →
           (handleSaveProfile st env).2.saved.displayName
             ≠ st.draft.displayName))) ∧
    (∀ (st1 st2 : SettingsState) (env : ProfileSaveEnv) (resp : SaveResponse)
        (p : ServerProfile),
      st1.saved = st2.saved →
      env.patchResult = .ok resp → resp.profile = some p →
      (handleSaveProfile st1 env).1 = true →
      (handleSaveProfile st2 env).1 = true →
        (handleSaveProfile st1 env).2.saved
          = (handleSaveProfile st2 env).2.saved) ∧
    (∀ (st1 st2 : SettingsState) (token : String) (p : ServerProfile),
      st1.saved = st2.saved →
      hasSectionChanges st1.saved st1.draft .privacy = true →
      hasSectionChanges st2.saved st2.draft .privacy = true →
      token ≠ "" →
        (handleSavePrivacy st1 token (.ok ⟨some p⟩)).2.saved
          = (handleSavePrivacy st2 token (.ok ⟨some p⟩)).2.saved) ∧
    (∀ (st : SettingsState) (token : String) (p : ServerProfile) (s : String),
      token ≠ "" →
      hasSectionChanges st.saved st.draft .appearance = true →
      p.theme = some s → s ≠ "" →
        (handleSaveAppearance st token (.ok ⟨some p⟩)).2.saved.theme = s) ∧
    (∀ (st : SettingsState) (token : String) (p : ServerProfile),
      token ≠ "" →
      hasSectionChanges st.saved st.draft .appearance = true →
      p.theme = none → st.draft.theme ≠ "" →
        (handleSaveAppearance st token (.ok ⟨some p⟩)).2.saved.theme
          = st.draft.theme) := by
  refine ⟨?_, ?_, ?_, ?_, ?_⟩
  · intro st env resp p s henv hprof hname hissued
    have hsv := handleSaveProfile_saved_of_ok st env resp p henv hprof hissued
    have hmain : (handleSaveProfile st env).2.saved.displayName = s := by
      rw [hsv]
      simp [profileNextFields, hname, jsOrStr_some_nil]
    exact ⟨hmain, fun hne => by rw [hmain]; exact hne⟩
  · intro st1 st2 env resp p hsaved henv hprof h1 h2
    rw [handleSaveProfile_saved_of_ok st1 env resp p henv hprof h1,
      handleSaveProfile_saved_of_ok st2 env resp p henv hprof h2, hsaved]
  · intro st1 st2 token p hsaved h1 h2 htok
    have htokb : (token == "") = false := beq_eq_false_iff_ne.mpr htok
    rw [hsaved] at h1
    simp [handleSavePrivacy, h1, h2, htokb, hsaved]
  · intro st token p s htok hdirty hteq hsne
    have htokb : (token == "") = false := beq_eq_false_iff_ne.mpr htok
    have hsb : (s == "") = false := beq_eq_false_iff_ne.mpr hsne
    simp [handleSaveAppearance, hdirty, htokb, hteq, jsOrStr, hsb]
  · intro st token p htok hdirty hteq hdne
    have htokb : (token == "") = false := beq_eq_false_iff_ne.mpr htok
    have hdb : (st.draft.theme == "") = false := beq_eq_false_iff_ne.mpr hdne
    simp [handleSaveAppearance, hdirty, htokb, hteq, jsOrStr, hdb]

/-- Witness for C2 (amended): a successful profile save whose response
profile carries `display_name = "Mika Server"` (different from the drafted
`"Mika Franco"`) commits the server value into `saved.displayName`. -/
theorem save_reconciliation_amended_witness :
    (handleSaveProfile sampleDirtyState sampleEnv).2.saved.displayName
      = "Mika Server" :=
  (save_reconciliation_amended.1 sampleDirtyState sampleEnv
    ⟨some sampleServerProfile⟩ sampleServerProfile "Mika Server"
    rfl rfl rfl (by decide)).1

end ProfileSpaces
